import Mathlib

/-!
Shallow embedding of the slot-filling dialogue loop of src/app.py
(AI Travel Planner). The pure data and control flow of the script are
mirrored as Lean definitions; the two LanguageModel-backed effects
(preference extraction and itinerary generation) are passed in as
explicit oracle arguments, since the network call itself is external.
-/

namespace TravelPlanner

/-- A JSON-like slot value as produced by json.loads on the model
output: a string, a list of strings, an integer or a boolean. -/
inductive Value where
  | s (str : String)
  | l (xs : List String)
  | n (num : Int)
  | b (bo : Bool)
deriving DecidableEq

/-- The nine preference slots of st.session_state.user_preferences
(src/app.py lines 43-54). -/
inductive Slot where
  | budget
  | duration
  | destination
  | starting_location
  | purpose
  | preferences
  | dietary_restrictions
  | mobility_concerns
  | accommodation_preferences
deriving DecidableEq

/-- The preference dictionary: each slot is either absent (None in the
Python dict) or holds a value. The same shape is used for extraction
results, identifying a missing key with an explicit null, since the
merge loop (line 271) skips both in the same way. -/
structure Preferences where
  budget : Option Value
  duration : Option Value
  destination : Option Value
  starting_location : Option Value
  purpose : Option Value
  preferences : Option Value
  dietary_restrictions : Option Value
  mobility_concerns : Option Value
  accommodation_preferences : Option Value
deriving DecidableEq

/-- Dictionary lookup by slot name. -/
def Preferences.get (p : Preferences) : Slot → Option Value
  | .budget => p.budget
  | .duration => p.duration
  | .destination => p.destination
  | .starting_location => p.starting_location
  | .purpose => p.purpose
  | .preferences => p.preferences
  | .dietary_restrictions => p.dietary_restrictions
  | .mobility_concerns => p.mobility_concerns
  | .accommodation_preferences => p.accommodation_preferences

/-- The initial value of st.session_state.user_preferences
(lines 44-54): scalars start as None, the two list slots start as
empty lists. -/
def initial_preferences : Preferences :=
  { budget := none
    duration := none
    destination := none
    starting_location := none
    purpose := none
    preferences := some (Value.l [])
    dietary_restrictions := some (Value.l [])
    mobility_concerns := none
    accommodation_preferences := none }

/-- The merge loop of main (lines 270-272): every key of the extraction
result whose value is not None overwrites the stored field; a None
value, like a missing key the loop never visits, leaves the stored
field alone. Since the keys are distinct dict entries, the per-key
assignments are written fieldwise. -/
def Preferences.merge (p u : Preferences) : Preferences where
  budget := u.budget.or p.budget
  duration := u.duration.or p.duration
  destination := u.destination.or p.destination
  starting_location := u.starting_location.or p.starting_location
  purpose := u.purpose.or p.purpose
  preferences := u.preferences.or p.preferences
  dietary_restrictions := u.dietary_restrictions.or p.dietary_restrictions
  mobility_concerns := u.mobility_concerns.or p.mobility_concerns
  accommodation_preferences := u.accommodation_preferences.or p.accommodation_preferences

/-- Truthiness of a value under Python bool(): the empty string, the
empty list, zero and False are falsy. -/
def Value.falsy : Value → Bool
  | .s str => str == ""
  | .l xs => xs.isEmpty
  | .n num => num == 0
  | .b bo => bo == false

/-- Lines 121-123 of extract_preferences: for the two list keys, a
falsy value (in particular an empty list) is converted to None. -/
def normalizeListKey : Option Value → Option Value
  | none => none
  | some v => if v.falsy then none else some v

/-- Outcome of one extraction call in extract_preferences: the model
call failed or returned no text (get_ai_response returned None), the
model text did not parse as JSON (json.loads raised, the ParseError
path), or it parsed to a slot map. -/
inductive ExtractOutcome where
  | lmFailure
  | parseError
  | parsed (u : Preferences)
deriving DecidableEq

/-- extract_preferences (lines 111-128) as a function of the outcome of
the model call and JSON parse: on model failure or parse error return
None; on success normalize the two list keys and return the map. -/
def extract_preferences : ExtractOutcome → Option Preferences
  | .lmFailure => none
  | .parseError => none
  | .parsed u =>
      some { u with preferences := normalizeListKey u.preferences
                    dietary_restrictions := normalizeListKey u.dietary_restrictions }

/-- Lines 267-272: the effect of one utterance on the stored
preferences, given the extraction outcome: merge the returned map, or
leave the store alone when extraction returned None (also when the
parsed dict is empty, whose merge is a no-op as well). -/
def stepStore (p : Preferences) (eo : ExtractOutcome) : Preferences :=
  match extract_preferences eo with
  | some u => p.merge u
  | none => p

/-- The conversational question texts of get_next_question
(lines 137-147). -/
def questions : Slot → String
  | .budget => "I\x27d love to help you plan a rejuvenating trip! Could you tell me your budget? (e.g., budget-friendly, mid-range, luxury, or a specific amount)"
  | .duration => "Perfect! How long would you like to take for this journey? Take your time to decide - it\x27s important to give yourself enough space to unwind."
  | .destination => "Is there a particular place you\x27ve been dreaming of visiting? I can suggest some peaceful and beautiful destinations if you\x27d like."
  | .starting_location => "Where will you be starting your journey from?"
  | .purpose => "What\x27s the main purpose of your trip? Are you looking for adventure, relaxation, or something specific?"
  | .preferences => "What kinds of activities interest you most? (e.g., nature walks, adventure sports, sightseeing, local experiences)"
  | .dietary_restrictions => "Do you have any dietary preferences or restrictions I should keep in mind?"
  | .mobility_concerns => "Do you have any mobility concerns I should consider while planning?"
  | .accommodation_preferences => "What type of accommodation would you prefer? (e.g., hotel, guesthouse, hostel)"

/-- The dict insertion order of user_preferences (lines 44-54), the
order in which missing_fields is computed on line 132. -/
def allSlots : List Slot :=
  [.budget, .duration, .destination, .starting_location, .purpose,
   .preferences, .dietary_restrictions, .mobility_concerns, .accommodation_preferences]

/-- The priority order of get_next_question (lines 150-151). -/
def priority_fields : List Slot :=
  [.budget, .duration, .destination, .starting_location, .purpose,
   .preferences, .accommodation_preferences, .dietary_restrictions, .mobility_concerns]

/-- get_next_question (lines 130-159): if no field is None, return
None; otherwise scan the priority order for the first field that is
None and not yet in asked_questions, add it to asked_questions and
return its question text; return None when the scan finds nothing.
The mutation of st.session_state.asked_questions is returned as the
second component. -/
def get_next_question (p : Preferences) (asked : Finset Slot) :
    Option String × Finset Slot :=
  if allSlots.all (fun s => (p.get s).isSome) then (none, asked)
  else
    match priority_fields.find? (fun s => (p.get s).isNone && !(decide (s ∈ asked))) with
    | some f => (some (questions f), insert f asked)
    | none => (none, asked)

/-- get_ai_response (lines 60-87): up to three attempts; an attempt is
none when the call raised or produced no usable response, and some t
when it returned text t. The first attempt whose text is truthy is
stripped and returned; if every attempt fails, None. -/
def get_ai_response : List (Option String) → Option String
  | [] => none
  | none :: rest => get_ai_response rest
  | some t :: rest => if t == "" then get_ai_response rest else some t.trim

/-- The fixed apology returned by generate_itinerary on line 211. -/
def apology_text : String :=
  "I apologize, but I couldn\x27t generate the itinerary. Please try again."

/-- generate_itinerary (lines 161-214): returns the model text when it
is truthy and the fixed apology otherwise. The prompt interpolation
feeds the external model and does not influence the abstract attempt
oracle, so it is not modeled. -/
def generate_itinerary (attempts : List (Option String)) : String :=
  match get_ai_response attempts with
  | some r => if r == "" then apology_text else r
  | none => apology_text

inductive Role where
  | user
  | assistant
deriving DecidableEq

/-- One entry of st.session_state.chat_history. -/
structure Msg where
  role : Role
  content : String
deriving DecidableEq

/-- The session state of the dialogue loop (lines 41-58). -/
structure SessionState where
  chat_history : List Msg
  user_preferences : Preferences
  last_input : Option String
  asked_questions : Finset Slot
deriving DecidableEq

/-- The intent keyword list of line 246. -/
def keywords : List String :=
  ["itinerary", "plan", "create", "generate", "show"]

/-- Whether the second list is a leading segment of the first. -/
def startsWithList : List Char → List Char → Bool
  | _, [] => true
  | [], _ :: _ => false
  | a :: as, b :: bs => a == b && startsWithList as bs

/-- Substring containment on character lists, modeling the Python
in operator on strings. -/
def containsSubList : List Char → List Char → Bool
  | [], pat => pat.isEmpty
  | a :: rest, pat => startsWithList (a :: rest) pat || containsSubList rest pat

/-- Python str.lower, character by character (ASCII-faithful). -/
def lowerStr (s : String) : String :=
  String.mk (s.toList.map Char.toLower)

/-- Python substring test: pat in text. -/
def containsSub (text pat : String) : Bool :=
  containsSubList text.toList pat.toList

/-- Line 246: some intent keyword occurs as a substring of the
lowercased input. -/
def hasKeyword (input : String) : Bool :=
  keywords.any (fun w => containsSub (lowerStr input) w)

/-- The required slot list of lines 247, 259 and 299. -/
def required_slots : List Slot :=
  [.budget, .duration, .destination, .starting_location]

/-- Lines 247 and 299: every required slot is not None. -/
def isCompleteReq (p : Preferences) : Bool :=
  required_slots.all (fun s => (p.get s).isSome)

/-- Python k.replace applied to a slot name followed by .title()
(line 259). -/
def titleName : Slot → String
  | .budget => "Budget"
  | .duration => "Duration"
  | .destination => "Destination"
  | .starting_location => "Starting Location"
  | .purpose => "Purpose"
  | .preferences => "Preferences"
  | .dietary_restrictions => "Dietary Restrictions"
  | .mobility_concerns => "Mobility Concerns"
  | .accommodation_preferences => "Accommodation Preferences"

/-- Python str() of a slot value, as interpolated into f-strings. -/
def strOfValue : Value → String
  | .s str => str
  | .l xs => "[" ++ String.intercalate ", " (xs.map (fun x => "\x27" ++ x ++ "\x27")) ++ "]"
  | .n num => toString num
  | .b true => "True"
  | .b false => "False"

/-- The destination value as displayed in messages (Python str(None)
is the text None). -/
def destDisplay (p : Preferences) : String :=
  match p.destination with
  | some v => strOfValue v
  | none => "None"

/-- The title-cased names of the required slots that are still None
(lines 259-260). -/
def missingNames (p : Preferences) : List String :=
  (required_slots.filter (fun s => (p.get s).isNone)).map titleName

/-- The message of line 263 listing the missing required slots. -/
def missingMessage (names : List String) : String :=
  "I still need some essential information before I can create your itinerary: "
    ++ String.intercalate ", " names

/-- The header wrapped around a generated itinerary (line 256). -/
def itineraryHeader (p : Preferences) (itinerary : String) : String :=
  "Here\x27s your personalized itinerary for " ++ destDisplay p ++ ":\n\n" ++ itinerary

/-- The confirmation message of line 283. -/
def readyMessage (p : Preferences) : String :=
  "Great! I have all the essential information about your trip to " ++ destDisplay p
    ++ ". Type \x27create itinerary\x27 and I\x27ll generate a detailed plan for you."

/-- The result of one submitted input: the new session state, whether
the extraction call was made, whether the itinerary generation call
was made, and the question text appended by get_next_question when
one was asked. -/
structure TurnResult where
  state : SessionState
  extractionCalled : Bool
  generationCalled : Bool
  askedQuestion : Option String
deriving DecidableEq

/-- Lines 240-243: record the input as last_input and append it to the
chat history. -/
def userTurnState (st : SessionState) (input : String) : SessionState :=
  { st with
    last_input := some input
    chat_history := st.chat_history ++ [⟨Role.user, input⟩] }

/-- Lines 248-257: the itinerary generation branch. It appends the
announcement, calls generate_itinerary and, since its result is a
truthy string or the apology, appends the headed result when truthy.
The preference store and asked_questions are untouched. -/
def genBranch (st : SessionState) (ga : List (Option String)) : TurnResult :=
  ⟨{ st with
     chat_history :=
       (st.chat_history ++ [⟨Role.assistant, "I\x27ll create your itinerary now..."⟩])
         ++ (if generate_itinerary ga == "" then []
             else [⟨Role.assistant, itineraryHeader st.user_preferences (generate_itinerary ga)⟩]) },
   false, true, none⟩

/-- Lines 258-264: the branch that lists the missing required slots. -/
def missingBranch (st : SessionState) : TurnResult :=
  ⟨{ st with
     chat_history :=
       st.chat_history
         ++ [⟨Role.assistant, missingMessage (missingNames st.user_preferences)⟩] },
   false, false, none⟩

/-- Lines 265-284: the extraction branch. Merge the extraction result
(if any) into the store, ask the next question if one is due,
otherwise emit the ready message when the required slots are
complete. -/
def extractBranch (st : SessionState) (eo : ExtractOutcome) : TurnResult :=
  match get_next_question (stepStore st.user_preferences eo) st.asked_questions with
  | (some t, asked2) =>
      ⟨{ st with
         user_preferences := stepStore st.user_preferences eo
         asked_questions := asked2
         chat_history := st.chat_history ++ [⟨Role.assistant, t⟩] },
       true, false, some t⟩
  | (none, asked2) =>
      if isCompleteReq (stepStore st.user_preferences eo) then
        ⟨{ st with
           user_preferences := stepStore st.user_preferences eo
           asked_questions := asked2
           chat_history :=
             st.chat_history
               ++ [⟨Role.assistant, readyMessage (stepStore st.user_preferences eo)⟩] },
         true, false, none⟩
      else
        ⟨{ st with
           user_preferences := stepStore st.user_preferences eo
           asked_questions := asked2 },
         true, false, none⟩

/-- One pass of the input-handling block of main (lines 238-286). The
guard on line 238 skips the whole block when the input is empty or
equals last_input. The extraction outcome and the generation attempt
results stand for the external model. -/
def processInput (st : SessionState) (input : String) (eo : ExtractOutcome)
    (ga : List (Option String)) : TurnResult :=
  if input = "" ∨ st.last_input = some input then ⟨st, false, false, none⟩
  else if hasKeyword input then
    if isCompleteReq st.user_preferences then genBranch (userTurnState st input) ga
    else missingBranch (userTurnState st input)
  else extractBranch (userTurnState st input) eo

/-- The slots strictly before a given slot in the priority order the
specification states (budget, duration, destination,
starting_location, purpose, preferences, accommodation_preferences,
dietary_restrictions, mobility_concerns); written out from the
specification text for comparison with priority_fields. -/
def priorSlots : Slot → List Slot
  | .budget => []
  | .duration => [.budget]
  | .destination => [.budget, .duration]
  | .starting_location => [.budget, .duration, .destination]
  | .purpose => [.budget, .duration, .destination, .starting_location]
  | .preferences => [.budget, .duration, .destination, .starting_location, .purpose]
  | .accommodation_preferences =>
      [.budget, .duration, .destination, .starting_location, .purpose, .preferences]
  | .dietary_restrictions =>
      [.budget, .duration, .destination, .starting_location, .purpose, .preferences,
       .accommodation_preferences]
  | .mobility_concerns =>
      [.budget, .duration, .destination, .starting_location, .purpose, .preferences,
       .accommodation_preferences, .dietary_restrictions]

/-- An extraction result with every key null. -/
def emptyUpdate : Preferences :=
  ⟨none, none, none, none, none, none, none, none, none⟩

/-- The session state right after initialization (lines 41-58). -/
def initial_session : SessionState :=
  { chat_history := []
    user_preferences := initial_preferences
    last_input := none
    asked_questions := ∅ }

/-- A mid-dialogue store with a destination already set. -/
def parisPrefs : Preferences :=
  { initial_preferences with
    destination := some (Value.s "Paris")
    starting_location := some (Value.s "Delhi") }

/-- A session that already asked about the budget and stored the
destination Paris. -/
def stParis : SessionState :=
  { chat_history := []
    user_preferences := parisPrefs
    last_input := none
    asked_questions := {Slot.budget} }

/-- An extraction result that changes the destination. -/
def updGoa : Preferences :=
  { emptyUpdate with destination := some (Value.s "Goa") }

/-- A store with all four required slots set and the other five in
their initial state. -/
def completePrefs : Preferences :=
  { initial_preferences with
    budget := some (Value.s "mid-range")
    duration := some (Value.n 5)
    destination := some (Value.s "Goa")
    starting_location := some (Value.s "Delhi") }

/-- A session whose required slots are complete. -/
def stComplete : SessionState :=
  { initial_session with user_preferences := completePrefs }

/-- A session whose previous input was the text hi. -/
def stDup : SessionState :=
  { initial_session with last_input := some "hi" }

/-- An update setting only the budget. -/
def updBudget : Preferences :=
  { emptyUpdate with budget := some (Value.s "luxury") }

/-- An update whose dietary_restrictions value is an empty list (to be
normalized away by extraction). -/
def updEmptyDiet : Preferences :=
  { emptyUpdate with dietary_restrictions := some (Value.l []) }

/-! Helper lemmas shared between the claim theorems. -/

/-- Merging reads each field from the update when present, from the
store otherwise. -/
lemma merge_get (p u : Preferences) (s : Slot) :
    (p.merge u).get s = (u.get s).or (p.get s) := by
  cases s <;> rfl

/-- Every slot occurs in the dict insertion order. -/
lemma mem_allSlots (s : Slot) : s ∈ allSlots := by
  cases s <;> simp [allSlots]

/-- Every slot occurs in the priority order. -/
lemma mem_priority_fields (s : Slot) : s ∈ priority_fields := by
  cases s <;> simp [priority_fields]

/-- If every attempt failed or produced empty text, get_ai_response
returns None. -/
lemma get_ai_response_none {attempts : List (Option String)}
    (h : ∀ a ∈ attempts, a = none ∨ a = some "") :
    get_ai_response attempts = none := by
  induction attempts with
  | nil => rfl
  | cons a rest ih =>
    rcases h a (by simp) with rfl | rfl
    · exact ih (fun x hx => h x (by simp [hx]))
    · simpa [get_ai_response] using ih (fun x hx => h x (by simp [hx]))

/-! Claim theorems. -/

/-- C7: whenever the four required slots budget, duration, destination
and starting_location are all set, the completeness check of lines 247
and 299 returns true, whatever the other five slots hold. -/
theorem c7_isComplete_required (p : Preferences)
    (h1 : (p.get Slot.budget).isSome = true)
    (h2 : (p.get Slot.duration).isSome = true)
    (h3 : (p.get Slot.destination).isSome = true)
    (h4 : (p.get Slot.starting_location).isSome = true) :
    isCompleteReq p = true := by
  simp [isCompleteReq, required_slots, h1, h2, h3, h4]

/-- Witness for C7 at a concrete store whose other five slots are in
their initial state. -/
theorem c7_witness : isCompleteReq completePrefs = true :=
  c7_isComplete_required completePrefs rfl rfl rfl rfl

/-- C8: the merge of lines 270-272 overwrites exactly the fields whose
key carries a non-null value in the update; every field that is absent
or null in the update keeps its previous value. -/
theorem c8_merge_frame (p u : Preferences) (s : Slot) :
    ((u.get s).isSome = true → (p.merge u).get s = u.get s) ∧
    (u.get s = none → (p.merge u).get s = p.get s) := by
  constructor
  · intro h
    rw [merge_get]
    rcases hu : u.get s with _ | v
    · rw [hu] at h; simp at h
    · rfl
  · intro h
    rw [merge_get, h]
    rfl

/-- Witness for C8: the update overwrites the budget it carries and
leaves the duration it does not mention unchanged. -/
theorem c8_witness :
    (parisPrefs.merge updBudget).get Slot.budget = updBudget.get Slot.budget ∧
    (parisPrefs.merge updBudget).get Slot.duration = parisPrefs.get Slot.duration :=
  ⟨(c8_merge_frame parisPrefs updBudget Slot.budget).1 rfl,
   (c8_merge_frame parisPrefs updBudget Slot.duration).2 rfl⟩

/-- C10: when the submitted input equals last_input, the guard of line
238 skips the whole turn: the session state is returned unchanged and
neither model call is made. -/
theorem c10_duplicate_input_noop (st : SessionState) (input : String)
    (eo : ExtractOutcome) (ga : List (Option String))
    (h : st.last_input = some input) :
    processInput st input eo ga = ⟨st, false, false, none⟩ := by
  unfold processInput
  rw [if_pos (Or.inr h)]

/-- Witness for C10 at a concrete repeated input. -/
theorem c10_witness :
    processInput stDup "hi" ExtractOutcome.parseError [] = ⟨stDup, false, false, none⟩ :=
  c10_duplicate_input_noop stDup "hi" ExtractOutcome.parseError [] rfl

/-- get_next_question only ever adds to asked_questions. -/
lemma asked_subset_next (p : Preferences) (asked : Finset Slot) :
    asked ⊆ (get_next_question p asked).2 := by
  unfold get_next_question
  split
  · exact Finset.Subset.refl _
  · split
    · exact Finset.subset_insert _ _
    · exact Finset.Subset.refl _

/-- Computation rule for the extraction branch when a question is due. -/
lemma extractBranch_eq_ask (st : SessionState) (eo : ExtractOutcome) (t : String)
    (asked2 : Finset Slot)
    (hq : get_next_question (stepStore st.user_preferences eo) st.asked_questions =
      (some t, asked2)) :
    extractBranch st eo =
      ⟨{ st with
         user_preferences := stepStore st.user_preferences eo
         asked_questions := asked2
         chat_history := st.chat_history ++ [⟨Role.assistant, t⟩] },
       true, false, some t⟩ := by
  unfold extractBranch
  simp only [hq]

/-- Computation rule for the extraction branch when no question is due
and the required slots are complete. -/
lemma extractBranch_eq_ready (st : SessionState) (eo : ExtractOutcome)
    (asked2 : Finset Slot)
    (hq : get_next_question (stepStore st.user_preferences eo) st.asked_questions =
      (none, asked2))
    (hc : isCompleteReq (stepStore st.user_preferences eo) = true) :
    extractBranch st eo =
      ⟨{ st with
         user_preferences := stepStore st.user_preferences eo
         asked_questions := asked2
         chat_history :=
           st.chat_history
             ++ [⟨Role.assistant, readyMessage (stepStore st.user_preferences eo)⟩] },
       true, false, none⟩ := by
  unfold extractBranch
  simp only [hq, hc, if_true]

/-- Computation rule for the extraction branch when no question is due
and the required slots are incomplete. -/
lemma extractBranch_eq_silent (st : SessionState) (eo : ExtractOutcome)
    (asked2 : Finset Slot)
    (hq : get_next_question (stepStore st.user_preferences eo) st.asked_questions =
      (none, asked2))
    (hc : isCompleteReq (stepStore st.user_preferences eo) = false) :
    extractBranch st eo =
      ⟨{ st with
         user_preferences := stepStore st.user_preferences eo
         asked_questions := asked2 },
       true, false, none⟩ := by
  unfold extractBranch
  simp only [hq, hc]
  rfl

/-- C1 counterexample: a session that already asked about the budget
(whose slot is still unset) and stores the destination Paris merges an
extraction result whose destination is Goa, a different value. After
the merge, the turn deterministically runs get_next_question on the
post-merge store and asked set, so the question it asks observably
distinguishes whether the merge cleared the set: the turn asks the
duration question and ends with the set containing budget and
duration, whereas on a cleared set the very same remainder of the
turn would have asked the budget question again and ended with the
set holding budget alone. The two question texts differ, so the merge
did not clear asked_questions, refuting the claim. -/
theorem c1_counterexample :
    stParis.user_preferences.get Slot.destination = some (Value.s "Paris") ∧
    updGoa.get Slot.destination = some (Value.s "Goa") ∧
    stParis.user_preferences.get Slot.budget = none ∧
    stParis.asked_questions = {Slot.budget} ∧
    (processInput stParis "goa trip" (ExtractOutcome.parsed updGoa) []).state.user_preferences.get
      Slot.destination = some (Value.s "Goa") ∧
    (processInput stParis "goa trip" (ExtractOutcome.parsed updGoa) []).askedQuestion =
      some (questions Slot.duration) ∧
    (processInput stParis "goa trip" (ExtractOutcome.parsed updGoa) []).state.asked_questions =
      {Slot.budget, Slot.duration} ∧
    (get_next_question (stepStore stParis.user_preferences (ExtractOutcome.parsed updGoa))
      ∅).1 = some (questions Slot.budget) ∧
    (get_next_question (stepStore stParis.user_preferences (ExtractOutcome.parsed updGoa))
      ∅).2 = {Slot.budget} ∧
    questions Slot.duration ≠ questions Slot.budget := by
  refine ⟨rfl, rfl, rfl, rfl, rfl, ?_, ?_, rfl, ?_, ?_⟩ <;> decide

/-- C1 (amended): no turn ever clears asked_questions. The merge loop
of lines 270-272 does not touch the set at all, and the only mutation
in a turn is get_next_question adding the slot it asks, so the set
only grows; in particular a destination-changing merge keeps every
previously asked slot. -/
theorem c1_asked_monotone (st : SessionState) (input : String) (eo : ExtractOutcome)
    (ga : List (Option String)) :
    st.asked_questions ⊆ (processInput st input eo ga).state.asked_questions := by
  unfold processInput
  split
  · exact Finset.Subset.refl _
  · split
    · split
      · unfold genBranch
        exact Finset.Subset.refl _
      · unfold missingBranch
        exact Finset.Subset.refl _
    · rcases hq : get_next_question (stepStore (userTurnState st input).user_preferences eo)
        (userTurnState st input).asked_questions with ⟨q, asked2⟩
      have hsub : (userTurnState st input).asked_questions ⊆ asked2 := by
        have h := asked_subset_next (stepStore (userTurnState st input).user_preferences eo)
          (userTurnState st input).asked_questions
        rw [hq] at h
        exact h
      cases q with
      | some t =>
        rw [extractBranch_eq_ask _ _ _ _ hq]
        exact hsub
      | none =>
        by_cases hc : isCompleteReq (stepStore (userTurnState st input).user_preferences eo) = true
        · rw [extractBranch_eq_ready _ _ _ hq hc]
          exact hsub
        · rw [extractBranch_eq_silent _ _ _ hq (by simpa using hc)]
          exact hsub

/-- C2: when the extraction call hits the ParseError path, the
preference store is unchanged and the question the turn asks is
exactly the one get_next_question would have produced on the state as
it was before the utterance. -/
theorem c2_parse_error_preserves (st : SessionState) (input : String)
    (ga : List (Option String))
    (h1 : input ≠ "") (h2 : st.last_input ≠ some input)
    (h3 : hasKeyword input = false) :
    (processInput st input ExtractOutcome.parseError ga).state.user_preferences =
      st.user_preferences ∧
    (processInput st input ExtractOutcome.parseError ga).askedQuestion =
      (get_next_question st.user_preferences st.asked_questions).1 := by
  have hguard : ¬(input = "" ∨ st.last_input = some input) := not_or.mpr ⟨h1, h2⟩
  unfold processInput
  rw [if_neg hguard, if_neg (by simp [h3])]
  rcases hq : get_next_question st.user_preferences st.asked_questions with ⟨q, asked2⟩
  have hq' : get_next_question
      (stepStore (userTurnState st input).user_preferences ExtractOutcome.parseError)
      (userTurnState st input).asked_questions = (q, asked2) := hq
  cases q with
  | some t =>
    rw [extractBranch_eq_ask _ _ _ _ hq']
    exact ⟨rfl, rfl⟩
  | none =>
    by_cases hc : isCompleteReq
        (stepStore (userTurnState st input).user_preferences ExtractOutcome.parseError) = true
    · rw [extractBranch_eq_ready _ _ _ hq' hc]
      exact ⟨rfl, rfl⟩
    · rw [extractBranch_eq_silent _ _ _ hq' (by simpa using hc)]
      exact ⟨rfl, rfl⟩

/-- Witness for C2 at a concrete keyword-free utterance. -/
theorem c2_witness :
    (processInput initial_session "hello" ExtractOutcome.parseError []).state.user_preferences =
      initial_session.user_preferences ∧
    (processInput initial_session "hello" ExtractOutcome.parseError []).askedQuestion =
      (get_next_question initial_session.user_preferences initial_session.asked_questions).1 :=
  c2_parse_error_preserves initial_session "hello" [] (by decide) (by decide) (by decide)

/-- C3 counterexample: at session start, before any merge, the store
already holds empty sequences in the preferences and
dietary_restrictions slots, while the claim says every slot is absent
or non-empty after every sequence of merges (including the empty
sequence). -/
theorem c3_counterexample :
    (List.foldl stepStore initial_preferences []).get Slot.preferences = some (Value.l []) ∧
    (List.foldl stepStore initial_preferences []).get Slot.dietary_restrictions =
      some (Value.l []) :=
  ⟨rfl, rfl⟩

/-- The extraction normalization never yields an empty list for a
normalized key. -/
lemma normalizeListKey_ne_emptyList (ov : Option Value) :
    normalizeListKey ov ≠ some (Value.l []) := by
  rcases ov with _ | v
  · simp [normalizeListKey]
  · simp only [normalizeListKey]
    split
    · simp
    · rename_i hv
      intro hcontra
      apply hv
      rw [Option.some.inj hcontra]
      rfl

/-- C3 (amended): a merge step never introduces an empty sequence into
the preferences or dietary_restrictions slot, because extraction
normalizes falsy values of those keys to null; an empty sequence found
there after a merge was already there before, so an empty sequence in
those slots can only be the never-updated initial value. -/
theorem c3_no_new_empty_seq (p : Preferences) (eo : ExtractOutcome) (s : Slot)
    (hs : s = Slot.preferences ∨ s = Slot.dietary_restrictions)
    (h : (stepStore p eo).get s = some (Value.l [])) :
    p.get s = some (Value.l []) := by
  cases eo with
  | lmFailure => exact h
  | parseError => exact h
  | parsed u =>
    have hstep : stepStore p (ExtractOutcome.parsed u) =
        p.merge { u with preferences := normalizeListKey u.preferences
                         dietary_restrictions := normalizeListKey u.dietary_restrictions } := rfl
    rw [hstep, merge_get] at h
    rcases hs with rfl | rfl
    · rcases hn : normalizeListKey u.preferences with _ | v
      · rw [show ({ u with preferences := normalizeListKey u.preferences
                           dietary_restrictions := normalizeListKey u.dietary_restrictions
                  } : Preferences).get Slot.preferences = normalizeListKey u.preferences from rfl,
           hn] at h
        exact h
      · exfalso
        apply normalizeListKey_ne_emptyList u.preferences
        rw [hn]
        rw [show ({ u with preferences := normalizeListKey u.preferences
                           dietary_restrictions := normalizeListKey u.dietary_restrictions
                  } : Preferences).get Slot.preferences = normalizeListKey u.preferences from rfl,
           hn] at h
        exact h
    · rcases hn : normalizeListKey u.dietary_restrictions with _ | v
      · rw [show ({ u with preferences := normalizeListKey u.preferences
                           dietary_restrictions := normalizeListKey u.dietary_restrictions
                  } : Preferences).get Slot.dietary_restrictions =
              normalizeListKey u.dietary_restrictions from rfl,
           hn] at h
        exact h
      · exfalso
        apply normalizeListKey_ne_emptyList u.dietary_restrictions
        rw [hn]
        rw [show ({ u with preferences := normalizeListKey u.preferences
                           dietary_restrictions := normalizeListKey u.dietary_restrictions
                  } : Preferences).get Slot.dietary_restrictions =
              normalizeListKey u.dietary_restrictions from rfl,
           hn] at h
        exact h

/-- Witness for C3 (amended): an update carrying an empty
dietary_restrictions list is normalized away, so the store keeps its
previous value there. -/
theorem c3_witness :
    initial_preferences.get Slot.dietary_restrictions = some (Value.l []) :=
  c3_no_new_empty_seq initial_preferences (ExtractOutcome.parsed updEmptyDiet)
    Slot.dietary_restrictions (Or.inr rfl) (by decide)

/-- C9: the intent test of line 246 is a substring match on the
lowercased utterance; any input containing a keyword, also inside a
longer word, takes the generation branch, so the extraction call is
never made and the preference store is unchanged for that turn. -/
theorem c9_keyword_substring (st : SessionState) (input : String) (eo : ExtractOutcome)
    (ga : List (Option String)) (w : String)
    (h1 : input ≠ "") (h2 : st.last_input ≠ some input)
    (hw : w ∈ keywords) (h3 : containsSub (lowerStr input) w = true) :
    (processInput st input eo ga).extractionCalled = false ∧
    (processInput st input eo ga).state.user_preferences = st.user_preferences := by
  have hk : hasKeyword input = true := by
    unfold hasKeyword
    rw [List.any_eq_true]
    exact ⟨w, hw, h3⟩
  have hguard : ¬(input = "" ∨ st.last_input = some input) := not_or.mpr ⟨h1, h2⟩
  unfold processInput
  rw [if_neg hguard, if_pos (by simp [hk])]
  split
  · unfold genBranch
    exact ⟨rfl, rfl⟩
  · unfold missingBranch
    exact ⟨rfl, rfl⟩

/-- Witness for C9: the utterance planning contains the keyword plan
only inside a longer word, yet the turn skips extraction and leaves
the store unchanged. -/
theorem c9_witness :
    (processInput initial_session "planning" ExtractOutcome.parseError []).extractionCalled =
      false ∧
    (processInput initial_session "planning" ExtractOutcome.parseError
      []).state.user_preferences = initial_session.user_preferences :=
  c9_keyword_substring initial_session "planning" ExtractOutcome.parseError [] "plan"
    (by decide) (by decide) (by decide) (by decide)

/-- If the priority scan of lines 154-157 finds a field, that field
satisfies the predicate and every field before it in the priority
order does not. -/
lemma find_priority_some (pred : Slot → Bool) (g : Slot)
    (h : priority_fields.find? pred = some g) :
    pred g = true ∧ ∀ x ∈ priorSlots g, pred x = false := by
  simp only [priority_fields] at h
  cases h1 : pred Slot.budget with
  | true =>
    rw [List.find?_cons_of_pos _ h1] at h
    obtain rfl := Option.some.inj h
    refine ⟨h1, ?_⟩
    intro x hx
    simp [priorSlots] at hx
  | false =>
    rw [List.find?_cons_of_neg _ (by simp [h1])] at h
    cases h2 : pred Slot.duration with
    | true =>
      rw [List.find?_cons_of_pos _ h2] at h
      obtain rfl := Option.some.inj h
      refine ⟨h2, ?_⟩
      intro x hx
      simp only [priorSlots] at hx
      fin_cases hx
      assumption
    | false =>
      rw [List.find?_cons_of_neg _ (by simp [h2])] at h
      cases h3 : pred Slot.destination with
      | true =>
        rw [List.find?_cons_of_pos _ h3] at h
        obtain rfl := Option.some.inj h
        refine ⟨h3, ?_⟩
        intro x hx
        simp only [priorSlots] at hx
        fin_cases hx <;> assumption
      | false =>
        rw [List.find?_cons_of_neg _ (by simp [h3])] at h
        cases h4 : pred Slot.starting_location with
        | true =>
          rw [List.find?_cons_of_pos _ h4] at h
          obtain rfl := Option.some.inj h
          refine ⟨h4, ?_⟩
          intro x hx
          simp only [priorSlots] at hx
          fin_cases hx <;> assumption
        | false =>
          rw [List.find?_cons_of_neg _ (by simp [h4])] at h
          cases h5 : pred Slot.purpose with
          | true =>
            rw [List.find?_cons_of_pos _ h5] at h
            obtain rfl := Option.some.inj h
            refine ⟨h5, ?_⟩
            intro x hx
            simp only [priorSlots] at hx
            fin_cases hx <;> assumption
          | false =>
            rw [List.find?_cons_of_neg _ (by simp [h5])] at h
            cases h6 : pred Slot.preferences with
            | true =>
              rw [List.find?_cons_of_pos _ h6] at h
              obtain rfl := Option.some.inj h
              refine ⟨h6, ?_⟩
              intro x hx
              simp only [priorSlots] at hx
              fin_cases hx <;> assumption
            | false =>
              rw [List.find?_cons_of_neg _ (by simp [h6])] at h
              cases h7 : pred Slot.accommodation_preferences with
              | true =>
                rw [List.find?_cons_of_pos _ h7] at h
                obtain rfl := Option.some.inj h
                refine ⟨h7, ?_⟩
                intro x hx
                simp only [priorSlots] at hx
                fin_cases hx <;> assumption
              | false =>
                rw [List.find?_cons_of_neg _ (by simp [h7])] at h
                cases h8 : pred Slot.dietary_restrictions with
                | true =>
                  rw [List.find?_cons_of_pos _ h8] at h
                  obtain rfl := Option.some.inj h
                  refine ⟨h8, ?_⟩
                  intro x hx
                  simp only [priorSlots] at hx
                  fin_cases hx <;> assumption
                | false =>
                  rw [List.find?_cons_of_neg _ (by simp [h8])] at h
                  cases h9 : pred Slot.mobility_concerns with
                  | true =>
                    rw [List.find?_cons_of_pos _ h9] at h
                    obtain rfl := Option.some.inj h
                    refine ⟨h9, ?_⟩
                    intro x hx
                    simp only [priorSlots] at hx
                    fin_cases hx <;> assumption
                  | false =>
                    rw [List.find?_cons_of_neg _ (by simp [h9])] at h
                    simp at h

/-- C4: get_next_question returns the question of the first slot in
the fixed priority order that is unset and not yet asked, and marks
exactly that slot as asked; it returns None and leaves the set
unchanged when no such slot remains. The slot it picks was not in
asked_questions before the call, so successive calls never repeat a
slot. -/
theorem c4_next_question_spec (p : Preferences) (asked : Finset Slot) :
    ((get_next_question p asked).1 = none →
      (get_next_question p asked).2 = asked ∧
        ∀ f : Slot, p.get f = none → f ∈ asked) ∧
    (∀ t : String, (get_next_question p asked).1 = some t →
      ∃ g : Slot, t = questions g ∧ p.get g = none ∧ g ∉ asked ∧
        (get_next_question p asked).2 = insert g asked ∧
        ∀ x ∈ priorSlots g, ¬(p.get x = none ∧ x ∉ asked)) := by
  by_cases hall : (allSlots.all fun s => (p.get s).isSome) = true
  · have hr : get_next_question p asked = (none, asked) := by
      unfold get_next_question
      rw [if_pos hall]
    rw [hr]
    constructor
    · intro _
      refine ⟨rfl, ?_⟩
      intro f hf
      exfalso
      have hmem := List.all_eq_true.mp hall f (mem_allSlots f)
      rw [hf] at hmem
      simp at hmem
    · intro t ht
      simp at ht
  · rcases hfind : priority_fields.find? (fun s => (p.get s).isNone && !(decide (s ∈ asked)))
      with _ | g
    · have hr : get_next_question p asked = (none, asked) := by
        unfold get_next_question
        rw [if_neg hall, hfind]
      rw [hr]
      constructor
      · intro _
        refine ⟨rfl, ?_⟩
        intro f hf
        have hp := List.find?_eq_none.mp hfind f (mem_priority_fields f)
        by_contra hfa
        apply hp
        simp [hf, hfa]
      · intro t ht
        simp at ht
    · have hr : get_next_question p asked = (some (questions g), insert g asked) := by
        unfold get_next_question
        rw [if_neg hall, hfind]
      obtain ⟨hg, hprior⟩ := find_priority_some _ g hfind
      simp only [Bool.and_eq_true] at hg
      obtain ⟨hg1, hg2⟩ := hg
      have hgu : p.get g = none := by simpa using hg1
      have hga : g ∉ asked := by simpa using hg2
      rw [hr]
      constructor
      · intro hnone
        simp at hnone
      · intro t ht
        refine ⟨g, (Option.some.inj ht).symm, hgu, hga, rfl, ?_⟩
        intro x hx hcontra
        have hpx := hprior x hx
        obtain ⟨hxu, hxa⟩ := hcontra
        rw [hxu] at hpx
        simp [hxa] at hpx

/-- Witness for C4: on the initial state with nothing asked, the call
picks the budget, the first slot of the priority order. -/
theorem c4_witness :
    ∃ g : Slot, questions Slot.budget = questions g ∧
      initial_preferences.get g = none ∧ g ∉ (∅ : Finset Slot) ∧
      (get_next_question initial_preferences ∅).2 = insert g ∅ ∧
      ∀ x ∈ priorSlots g,
        ¬(initial_preferences.get x = none ∧ x ∉ (∅ : Finset Slot)) :=
  (c4_next_question_spec initial_preferences ∅).2 (questions Slot.budget) rfl

/-- C5: on an utterance containing an intent keyword, the turn runs
the generation branch when the four required slots are set, and
otherwise appends the message listing exactly the still-missing
required slots and makes no generation call. -/
theorem c5_intent_gate (st : SessionState) (input : String) (eo : ExtractOutcome)
    (ga : List (Option String))
    (h1 : input ≠ "") (h2 : st.last_input ≠ some input)
    (h3 : hasKeyword input = true) :
    (isCompleteReq st.user_preferences = true →
      (processInput st input eo ga).generationCalled = true) ∧
    (isCompleteReq st.user_preferences = false →
      (processInput st input eo ga).generationCalled = false ∧
      (processInput st input eo ga).state.chat_history =
        st.chat_history ++ [⟨Role.user, input⟩,
          ⟨Role.assistant, missingMessage (missingNames st.user_preferences)⟩]) := by
  have hguard : ¬(input = "" ∨ st.last_input = some input) := not_or.mpr ⟨h1, h2⟩
  unfold processInput
  rw [if_neg hguard, if_pos (by simp [h3])]
  constructor
  · intro hc
    rw [if_pos hc]
    rfl
  · intro hc
    rw [if_neg (by simp [hc])]
    refine ⟨rfl, ?_⟩
    show (st.chat_history ++ [⟨Role.user, input⟩])
        ++ [⟨Role.assistant, missingMessage (missingNames st.user_preferences)⟩] = _
    simp

/-- Witness for C5 at the initial session (budget still missing) and
the utterance plan. -/
theorem c5_witness :
    (processInput initial_session "plan" ExtractOutcome.parseError []).generationCalled = false ∧
    (processInput initial_session "plan" ExtractOutcome.parseError []).state.chat_history =
      initial_session.chat_history ++ [⟨Role.user, "plan"⟩,
        ⟨Role.assistant, missingMessage (missingNames initial_session.user_preferences)⟩] :=
  (c5_intent_gate initial_session "plan" ExtractOutcome.parseError [] (by decide) (by decide)
    (by decide)).2 rfl

/-- C6: with all required slots set, when every generation attempt
fails or yields empty text, generate_itinerary returns the fixed
apology, and the turn leaves the preference store unchanged and still
complete, so the user may simply retry. -/
theorem c6_generation_failure (st : SessionState) (input : String) (eo : ExtractOutcome)
    (attempts : List (Option String))
    (h1 : input ≠ "") (h2 : st.last_input ≠ some input)
    (h3 : hasKeyword input = true)
    (h4 : isCompleteReq st.user_preferences = true)
    (h5 : ∀ a ∈ attempts, a = none ∨ a = some "") :
    generate_itinerary attempts = apology_text ∧
    (processInput st input eo attempts).state.user_preferences = st.user_preferences ∧
    isCompleteReq (processInput st input eo attempts).state.user_preferences = true ∧
    (processInput st input eo attempts).generationCalled = true := by
  have hguard : ¬(input = "" ∨ st.last_input = some input) := not_or.mpr ⟨h1, h2⟩
  have hg : generate_itinerary attempts = apology_text := by
    unfold generate_itinerary
    rw [get_ai_response_none h5]
  refine ⟨hg, ?_, ?_, ?_⟩
  · unfold processInput
    rw [if_neg hguard, if_pos (by simp [h3]), if_pos h4]
    rfl
  · unfold processInput
    rw [if_neg hguard, if_pos (by simp [h3]), if_pos h4]
    exact h4
  · unfold processInput
    rw [if_neg hguard, if_pos (by simp [h3]), if_pos h4]
    rfl

/-- Witness for C6 at a complete session with three failing or empty
attempts. -/
theorem c6_witness :
    generate_itinerary [none, none, some ""] = apology_text ∧
    (processInput stComplete "generate" ExtractOutcome.parseError
      [none, none, some ""]).state.user_preferences = stComplete.user_preferences ∧
    isCompleteReq (processInput stComplete "generate" ExtractOutcome.parseError
      [none, none, some ""]).state.user_preferences = true ∧
    (processInput stComplete "generate" ExtractOutcome.parseError
      [none, none, some ""]).generationCalled = true :=
  c6_generation_failure stComplete "generate" ExtractOutcome.parseError [none, none, some ""]
    (by decide) (by decide) (by decide) (by decide) (by decide)

end TravelPlanner
